import Mathlib

/-!
Verification of the Telegram-to-GitHub upload bot.

Shallow embedding of the repository sources (main.py, github_handler.py,
readme_generator.py).  Pure computations are translated directly; network
calls (GitHub REST responses) are modelled by Boolean/Option-valued oracles
passed as arguments, and the sequence of issued calls is made observable in
the return value (call counts, attempted-file lists).
-/

set_option maxRecDepth 10000

namespace Bot

/-! ### Generic string helpers (substring, lexicographic order) -/

/-- Boolean test: `p` is a leading segment of `l` (character lists). -/
def pfxB : List Char → List Char → Bool
  | [], _ => true
  | _ :: _, [] => false
  | a :: as, b :: bs => a = b && pfxB as bs

/-- Boolean test: `sub` occurs contiguously inside `l` (character lists). -/
def subListB (sub : List Char) : List Char → Bool
  | [] => sub.isEmpty
  | c :: rest => pfxB sub (c :: rest) || subListB sub rest

/-- Boolean substring test on strings, mirroring the Python `in` operator. -/
def subB (sub s : String) : Bool := subListB sub.data s.data

/-- `s` contains `sub` as a contiguous substring (propositional form). -/
def containsSub (sub s : String) : Prop := ∃ a b, s = a ++ sub ++ b

/-- Boolean suffix test (Python `str.endswith`). -/
def endsWithB (s suf : String) : Bool := pfxB suf.data.reverse s.data.reverse

/-- Left-to-right non-overlapping replacement of a pattern in a character
list, as Python `str.replace` performs it for a non-empty pattern. -/
def replaceList (pat rep : List Char) : List Char → List Char
  | [] => []
  | c :: rest =>
    if pat.isEmpty = false && pfxB pat (c :: rest) then
      rep ++ replaceList pat rep (rest.drop (pat.length - 1))
    else c :: replaceList pat rep rest
termination_by l => l.length
decreasing_by
  · simp only [List.length_drop, List.length_cons]; omega
  · simp only [List.length_cons]; omega

/-- Python `str.replace` on strings (non-empty pattern; the source only
ever replaces the literal `".zip"`). -/
def pyReplace (s pat rep : String) : String :=
  String.mk (replaceList pat.data rep.data s.data)

/-- Python `str.lower` restricted to ASCII, which covers the command texts
the source lowercases. -/
def toLowerStr (s : String) : String := String.mk (s.data.map Char.toLower)

/-- Lexicographic `≤` on character lists, as Python compares strings. -/
def charListLe : List Char → List Char → Bool
  | [], _ => true
  | _ :: _, [] => false
  | a :: as, b :: bs => if a = b then charListLe as bs else decide (a < b)

/-- Lexicographic `≤` on strings (Python string comparison). -/
def strLeB (a b : String) : Bool := charListLe a.data b.data

/-- Stable insertion into an ascending list (Python `sorted` semantics). -/
def insAsc (x : String) : List String → List String
  | [] => [x]
  | y :: rest => if strLeB y x then y :: insAsc x rest else x :: y :: rest

/-- Stable ascending sort, as Python `sorted` on strings. -/
def sortAsc (l : List String) : List String := l.foldl (fun acc x => insAsc x acc) []

/-- Stable insertion into a count-descending list. -/
def insCountDesc (x : String × Nat) :
    List (String × Nat) → List (String × Nat)
  | [] => [x]
  | y :: rest => if x.2 ≤ y.2 then y :: insCountDesc x rest else x :: y :: rest

/-- Stable descending-by-count sort: Python `sorted(key=count, reverse=True)`. -/
def sortCountDesc (l : List (String × Nat)) : List (String × Nat) :=
  l.foldl (fun acc x => insCountDesc x acc) []

/-- Keep the first occurrence of each element.  Models Python `list(set(..))`
up to ordering (set iteration order is interpreter-dependent). -/
def dedup : List String → List String
  | [] => []
  | x :: rest => if (dedup rest).contains x then dedup rest else x :: dedup rest

/-! ### File-system model for the extracted archive (the staged project) -/

mutual
/-- One entry of the extracted directory tree: a file with its textual
content, or a directory with its own listing. -/
inductive FSEntry : Type where
  | file (name content : String) : FSEntry
  | dir (name : String) (children : FSDir) : FSEntry
/-- A directory listing in `os.listdir` order. -/
inductive FSDir : Type where
  | nil : FSDir
  | cons (e : FSEntry) (rest : FSDir) : FSDir
end

/-- Name of a directory entry (`os.listdir` element). -/
def FSEntry.entryName : FSEntry → String
  | .file n _ => n
  | .dir n _ => n

/-- Number of entries in a listing (`len(os.listdir(d))`). -/
def FSDir.len : FSDir → Nat
  | .nil => 0
  | .cons _ rest => 1 + rest.len

/-- Listing concatenation. -/
def FSDir.append : FSDir → FSDir → FSDir
  | .nil, d => d
  | .cons e rest, d => .cons e (rest.append d)

/-- Does some entry of the listing satisfy the (shallow) predicate? -/
def FSDir.anyE (p : FSEntry → Bool) : FSDir → Bool
  | .nil => false
  | .cons e rest => p e || rest.anyE p

/-- Build a listing from a Lean list of entries (concrete-test helper). -/
def fsOf : List FSEntry → FSDir
  | [] => .nil
  | e :: rest => .cons e (fsOf rest)

/-- Pairs `(relative_path, filename)` of the files directly at this level,
with `base` the accumulated relative prefix.  Mirrors the `files` component
of one `os.walk` step. -/
def dirFiles (base : String) : FSDir → List (String × String)
  | .nil => []
  | .cons (FSEntry.file n _) rest => (base ++ n, n) :: dirFiles base rest
  | .cons (FSEntry.dir _ _) rest => dirFiles base rest

mutual
/-- Files found by descending into each subdirectory in listing order,
mirroring the recursive part of top-down `os.walk`. -/
def walkSub (base : String) : FSDir → List (String × String)
  | .nil => []
  | .cons e rest => walkSubEntry base e ++ walkSub base rest
/-- Contribution of one entry to the descent: nothing for a file (already
listed at its own level), the full walk for a directory. -/
def walkSubEntry (base : String) : FSEntry → List (String × String)
  | FSEntry.file _ _ => []
  | FSEntry.dir n cs =>
      dirFiles (base ++ n ++ "/") cs ++ walkSub (base ++ n ++ "/") cs
end

/-- All `(relative_path, filename)` pairs of a tree in `os.walk` top-down
order: the current directory's files first, then each subdirectory. -/
def os_walk_files (base : String) (es : FSDir) : List (String × String) :=
  dirFiles base es ++ walkSub base es

/-! ### ZIP layout normalization (`main.py`: `_check_zip_structure`,
`_fix_zip_structure`; the call sites run the fix only when the check fails) -/

/-- `_check_zip_structure`: the structure is correct unless the root listing
is exactly one entry and that entry is a directory. -/
def _check_zip_structure : FSDir → Bool
  | FSDir.cons (FSEntry.dir _ _) FSDir.nil => false
  | _ => true

/-- `_fix_zip_structure`: hoist the children of a sole wrapper directory to
the root and drop the wrapper; otherwise leave the tree alone. -/
def _fix_zip_structure : FSDir → FSDir
  | FSDir.cons (FSEntry.dir _ cs) FSDir.nil => cs
  | r => r

/-- The combined call-site pattern
`if not _check_zip_structure(d): _fix_zip_structure(d)`. -/
def normalizeLayout (r : FSDir) : FSDir :=
  if _check_zip_structure r then r else _fix_zip_structure r

/-! ### readme_generator.py : project analysis -/

/-- `ReadmeGenerator.language_extensions` (fixed static table). -/
def language_extensions : List (String × String) :=
  [(".py", "Python"), (".js", "JavaScript"), (".ts", "TypeScript"),
   (".java", "Java"), (".cpp", "C++"), (".c", "C"), (".cs", "C#"),
   (".php", "PHP"), (".rb", "Ruby"), (".go", "Go"), (".rs", "Rust"),
   (".swift", "Swift"), (".kt", "Kotlin"), (".dart", "Dart"),
   (".html", "HTML"), (".css", "CSS"), (".scss", "SCSS"), (".sass", "Sass"),
   (".vue", "Vue.js"), (".jsx", "React JSX"), (".tsx", "React TSX"),
   (".r", "R"), (".m", "Objective-C"), (".sh", "Shell"), (".bat", "Batch"),
   (".ps1", "PowerShell")]

/-- Association-list lookup (Python `dict` membership on a fixed table). -/
def tableLookup {α : Type} (t : List (String × α)) (k : String) : Option α :=
  match t with
  | [] => none
  | (k2, v) :: rest => if k2 = k then some v else tableLookup rest k

/-- Split a character list before its last dot:
`some (before, fromLastDot)` when the list has a dot, else `none`. -/
def lastDotSplit : List Char → Option (List Char × List Char)
  | [] => none
  | c :: rest =>
    match lastDotSplit rest with
    | some (r, e) => some (c :: r, e)
    | none => if c = '.' then some ([], c :: rest) else none

/-- Every character is a dot. -/
def allDots : List Char → Bool
  | [] => true
  | c :: r => c = '.' && allDots r

/-- Extension of a filename as `os.path.splitext` computes it: the segment
from the last dot, unless every character before that dot is itself a dot
(so names like `.bashrc` and `..py` have no extension). -/
def splitextExt (file : String) : String :=
  match lastDotSplit file.data with
  | none => ""
  | some (root, e) => if allDots root then "" else String.mk e

/-- Insert one observation into the insertion-ordered language tally, as
`d[lang] = d.get(lang, 0) + 1` does on an insertion-ordered Python dict. -/
def bumpLang (lang : String) : List (String × Nat) → List (String × Nat)
  | [] => [(lang, 1)]
  | (l, c) :: rest =>
      if l = lang then (l, c + 1) :: rest else (l, c) :: bumpLang lang rest

/-- Tally recognized languages over `(relative_path, filename)` pairs, the
extension being taken from the bare filename as in the source loop. -/
def tallyLanguages (files : List (String × String)) : List (String × Nat) :=
  files.foldl
    (fun m f =>
      match tableLookup language_extensions (splitextExt f.2) with
      | some lang => bumpLang lang m
      | none => m)
    []

/-- First-maximum scan matching Python `max(d, key=d.get)` over an
insertion-ordered dict: later entries win only with a strictly larger count. -/
def maxLangGo (best : String) (bc : Nat) : List (String × Nat) → String
  | [] => best
  | (l, c) :: rest => if bc < c then maxLangGo l c rest else maxLangGo best bc rest

/-- `main_language`: `None` on an empty tally, else the first maximum. -/
def maxLang : List (String × Nat) → Option String
  | [] => none
  | (l, c) :: rest => some (maxLangGo l c rest)

/-- `_detect_frameworks`' marker-filename table. -/
def framework_indicators : List (String × List String) :=
  [("package.json", ["Node.js", "npm"]), ("requirements.txt", ["Python"]),
   ("Pipfile", ["Python", "Pipenv"]), ("setup.py", ["Python"]),
   ("composer.json", ["PHP", "Composer"]), ("Gemfile", ["Ruby"]),
   ("go.mod", ["Go"]), ("Cargo.toml", ["Rust"]), ("pom.xml", ["Java", "Maven"]),
   ("build.gradle", ["Java", "Gradle"]), ("pubspec.yaml", ["Dart", "Flutter"]),
   ("vue.config.js", ["Vue.js"]), ("angular.json", ["Angular"]),
   ("next.config.js", ["Next.js"]), ("nuxt.config.js", ["Nuxt.js"]),
   ("gatsby-config.js", ["Gatsby"]), ("webpack.config.js", ["Webpack"]),
   ("vite.config.js", ["Vite"]), ("tsconfig.json", ["TypeScript"]),
   ("tailwind.config.js", ["Tailwind CSS"]), ("postcss.config.js", ["PostCSS"])]

/-- `_detect_frameworks`' dependency-name table for `package.json`. -/
def framework_packages : List (String × String) :=
  [("react", "React"), ("vue", "Vue.js"), ("angular", "Angular"),
   ("express", "Express.js"), ("koa", "Koa.js"), ("fastify", "Fastify"),
   ("nest", "NestJS"), ("svelte", "Svelte"), ("solid-js", "Solid.js"),
   ("lit", "Lit"), ("bootstrap", "Bootstrap"), ("bulma", "Bulma"),
   ("material-ui", "Material-UI"), ("ant-design", "Ant Design"),
   ("chakra-ui", "Chakra UI")]

/-- Content of a top-level regular file of that name, if any; `none` also
when the name belongs to a directory (opening it for reading would fail,
which the source swallows with a bare `except`). -/
def rootFileContent (root : FSDir) (name : String) : Option String :=
  match root with
  | FSDir.nil => none
  | FSDir.cons (FSEntry.file n c) rest =>
      if n = name then some c else rootFileContent rest name
  | FSDir.cons (FSEntry.dir _ _) rest => rootFileContent rest name

/-- `_detect_frameworks`.  `parseDeps` stands for `json.load` plus the merge
of `dependencies` and `devDependencies` key names (library code outside this
repository); `none` covers both parse failure and a missing/unreadable file,
landing in the source's silent `except: pass`. -/
def _detect_frameworks (parseDeps : String → Option (List String))
    (root : FSDir) (files : List (String × String)) : List String :=
  let fromMarkers : List String :=
    files.foldl
      (fun acc f =>
        match tableLookup framework_indicators f.2 with
        | some l => acc ++ l
        | none => acc)
      []
  let withPkg : List String :=
    match rootFileContent root "package.json" with
    | none => fromMarkers
    | some content =>
      match parseDeps content with
      | none => fromMarkers
      | some deps =>
          framework_packages.foldl
            (fun acc pf =>
              if deps.any (fun d => subB pf.1 d) then acc ++ [pf.2] else acc)
            fromMarkers
  dedup withPkg

/-- Does some `(relative_path, filename)` pair have this basename?
(Python `name in [os.path.basename(f) for f in files]`.) -/
def hasBasename (files : List (String × String)) (name : String) : Bool :=
  files.any (fun f => f.2 = name)

/-- Does some relative path end with this suffix?
(Python `any(f.endswith(ext) for f in files)`.) -/
def anyPathEnds (files : List (String × String)) (suf : String) : Bool :=
  files.any (fun f => endsWithB f.1 suf)

/-- `_detect_project_type`.  The source's trailing `return 'Application'`
makes the result total; the nested Python-branch falls through to it. -/
def _detect_project_type (files : List (String × String)) : String :=
  if hasBasename files "package.json" then "Web Application"
  else if anyPathEnds files ".py" then
    (if hasBasename files "requirements.txt" then "Python Application"
     else if hasBasename files "manage.py" then "Django Application"
     else if hasBasename files "app.py" || hasBasename files "main.py" then
       "Python Application"
     else "Application")
  else if anyPathEnds files ".java" then "Java Application"
  else if anyPathEnds files ".cpp" || anyPathEnds files ".c" then
    "C/C++ Application"
  else if anyPathEnds files ".go" then "Go Application"
  else if anyPathEnds files ".rs" then "Rust Application"
  else if anyPathEnds files ".php" then "PHP Application"
  else if anyPathEnds files ".rb" then "Ruby Application"
  else "Application"

/-- Result of `analyze_project` (the `directories` key of the source dict is
never filled in and never read, so it is omitted). -/
structure ProjectAnalysis where
  languages : List (String × Nat)
  frameworks : List String
  files : List (String × String)
  main_language : Option String
  project_type : String

/-- `analyze_project` over the staged tree. -/
def analyze_project (parseDeps : String → Option (List String))
    (root : FSDir) : ProjectAnalysis :=
  let files := os_walk_files "" root
  let langs := tallyLanguages files
  { languages := langs
    frameworks := _detect_frameworks parseDeps root files
    files := files
    main_language := maxLang langs
    project_type := _detect_project_type files }

/-! ### readme_generator.py : document rendering -/

/-- Split a character list before its last slash. -/
def lastSlashSplit : List Char → Option (List Char × List Char)
  | [] => none
  | c :: rest =>
    match lastSlashSplit rest with
    | some (r, e) => some (c :: r, e)
    | none => if c = '/' then some ([], c :: rest) else none

/-- `os.path.dirname` on the slash-separated relative paths produced by the
walk: everything before the last slash, `""` when there is none. -/
def dirnameOf (p : String) : String :=
  match lastSlashSplit p.data with
  | none => ""
  | some (r, _) => String.mk r

/-- `"# {project_name}\n\n"`, the document title line. -/
def readmeTitle (name : String) : String := ("# " ++ name) ++ "\n\n"

/-- The one-line description paragraph. -/
def descSection (a : ProjectAnalysis) : String :=
  if a.project_type ≠ "" then
    ("A " ++ a.project_type) ++
      ((match a.main_language with
        | some l => " built with " ++ l
        | none => "") ++ ".\n\n")
  else "Project uploaded via Telegram Bot.\n\n"

/-- `"- {x}\n"` lines for a list of names. -/
def bulletLines : List String → String
  | [] => ""
  | x :: rest => (("- " ++ x) ++ "\n") ++ bulletLines rest

/-- The `## Technologies Used` section (absent when both lists are empty). -/
def techSection (a : ProjectAnalysis) : String :=
  if a.languages.isEmpty && a.frameworks.isEmpty then ""
  else
    "## Technologies Used\n\n" ++
      ((if a.languages.isEmpty then ""
        else "**Languages:**\n" ++
              (bulletLines ((sortCountDesc a.languages).map (fun p => p.1)) ++ "\n")) ++
       (if a.frameworks.isEmpty then ""
        else "**Frameworks/Libraries:**\n" ++ (bulletLines a.frameworks ++ "\n")))

/-- `"├── {d}/\n"` lines for the sorted directory names. -/
def dirTreeLines : List String → String
  | [] => ""
  | d :: rest => (("├── " ++ d) ++ "/\n") ++ dirTreeLines rest

/-- Lines for the sorted root files; only the very last file gets the
`└──` corner, and only when no directory line was printed. -/
def fileTreeLines (hasDirs : Bool) : List String → String
  | [] => ""
  | [f] => ((if hasDirs then "├── " else "└── ") ++ f) ++ "\n"
  | f :: rest => (("├── " ++ f) ++ "\n") ++ fileTreeLines hasDirs rest

/-- The `## Project Structure` section. -/
def structureSection (name : String) (files : List (String × String)) : String :=
  let dirs := sortAsc (dedup
    (files.foldl
      (fun acc f =>
        let d := dirnameOf f.1
        if d ≠ "" && d ≠ "." then acc ++ [d] else acc)
      []))
  let rootFiles := sortAsc ((files.filter (fun f => dirnameOf f.1 = "")).map (fun f => f.1))
  "## Project Structure\n\n```\n" ++
    ((name ++ "/\n") ++
      (dirTreeLines dirs ++ (fileTreeLines (! dirs.isEmpty) rootFiles ++ "```\n\n")))

/-- The ecosystem-specific `## Getting Started` section. -/
def gettingStartedSection (name : String) (files : List (String × String)) : String :=
  "## Getting Started\n\n" ++
    (if hasBasename files "package.json" then
      "### Prerequisites\n\n- Node.js (v14 or higher)\n- npm or yarn\n\n### Installation\n\n```bash\n# Clone the repository\ngit clone https://github.com/your-username/" ++
        ((name ++ ".git\ncd " ++ name) ++
          "\n\n# Install dependencies\nnpm install\n# or\nyarn install\n```\n\n### Usage\n\n```bash\n# Start the application\nnpm start\n# or\nyarn start\n```\n\n")
    else if hasBasename files "requirements.txt" then
      "### Prerequisites\n\n- Python 3.7+\n- pip\n\n### Installation\n\n```bash\n# Clone the repository\ngit clone https://github.com/your-username/" ++
        ((name ++ ".git\ncd " ++ name) ++
          "\n\n# Install dependencies\npip install -r requirements.txt\n```\n\n### Usage\n\n```bash\n# Run the application\npython main.py\n```\n\n")
    else
      "### Installation\n\n```bash\n# Clone the repository\ngit clone https://github.com/your-username/" ++
        ((name ++ ".git\ncd " ++ name) ++
          "\n```\n\n### Usage\n\nFollow the specific instructions for your project type.\n\n"))

/-- The fixed contributing / license / footer boilerplate that closes every
generated document. -/
def readmeTail : String :=
  "## Contributing\n\n1. Fork the repository\n2. Create your feature branch (`git checkout -b feature/amazing-feature`)\n3. Commit your changes (`git commit -m \x27Add some amazing feature\x27`)\n4. Push to the branch (`git push origin feature/amazing-feature`)\n5. Open a Pull Request\n\n" ++
    ("## License\n\nThis project is licensed under the MIT License - see the LICENSE file for details.\n\n" ++
      "---\n\n*Project uploaded via Telegram Bot*\n")

/-- `generate_readme`: analysis followed by the fixed rendering pipeline.
The concatenation is grouped to the right so each section is a visible
component; the resulting string is the same flat text the source builds by
repeated `+=`. -/
def generate_readme (parseDeps : String → Option (List String))
    (root : FSDir) (project_name : String) : String :=
  let a := analyze_project parseDeps root
  readmeTitle project_name ++
    (descSection a ++
      (techSection a ++
        (structureSection project_name a.files ++
          (gettingStartedSection project_name a.files ++ readmeTail))))

/-! ### github_handler.py -/

/-- `create_repository`: the POST response status, `none` standing for a
raised exception.  Only 201 is success; 422 (already exists) and every other
status fall to the same `False`. -/
def create_repository (resp : Option Nat) : Bool :=
  match resp with
  | none => false
  | some status =>
    if status = 201 then true
    else if status = 422 then false
    else false

/-- The per-file PUT loop of `upload_files`: returns
`(attempted_calls, success_count)`.  A failed PUT (or a per-file exception)
is logged and the loop continues with the next file. -/
def upload_loop (put_ok : String → Bool) : List String → Nat × Nat
  | [] => (0, 0)
  | f :: rest =>
    let r := upload_loop put_ok rest
    (r.1 + 1, if put_ok f then r.2 + 1 else r.2)

/-- `upload_files`: resolve the username (abort on failure), walk the
staged directory, PUT each file, and report `success_count > 0`.  Returns
`(attempted_put_calls, overall_result)`. -/
def upload_files (username_ok : Bool) (files : List String)
    (put_ok : String → Bool) : Nat × Bool :=
  if username_ok then
    ((upload_loop put_ok files).1, decide (0 < (upload_loop put_ok files).2))
  else (0, false)

mutual
/-- One item of a GitHub contents listing, as `find_files_recursively`
consumes it: a file with `path` and `sha`, or a directory with the listing
of its own contents. -/
inductive RItem : Type where
  | file (path sha : String) : RItem
  | dir (path : String) (children : RListing) : RItem
/-- A contents listing, in API response order. -/
inductive RListing : Type where
  | nil : RListing
  | cons (i : RItem) (rest : RListing) : RListing
end

/-- Build a listing from a Lean list of items (concrete-test helper). -/
def rlOf : List RItem → RListing
  | [] => RListing.nil
  | i :: rest => RListing.cons i (rlOf rest)

mutual
/-- `find_files_recursively`: files of a listing in order, a directory's
descendants inserted at the directory's position. -/
def find_files_recursively : RListing → List (String × String)
  | RListing.nil => []
  | RListing.cons i rest => find_files_item i ++ find_files_recursively rest
/-- Contribution of one listed item: the file's `(path, sha)` pair, or the
recursive collection of a directory. -/
def find_files_item : RItem → List (String × String)
  | RItem.file p s => [(p, s)]
  | RItem.dir _ cs => find_files_recursively cs
end

/-- The sequential deletion loop of `clear_repository_contents`: delete the
collected files one request at a time, break on the first failure.  Returns
`(issued_delete_calls, all_deleted)`. -/
def deletion_loop (del : String × String → Bool) :
    List (String × String) → Nat × Bool
  | [] => (0, true)
  | f :: rest =>
    if del f then
      let r := deletion_loop del rest
      (r.1 + 1, r.2)
    else (1, false)

/-- `clear_repository_contents`: collect every remote file by the recursive
traversal, then run the deletion loop; an empty collection is immediate
success with no delete call. -/
def clear_repository_contents (items : RListing)
    (del : String × String → Bool) : Nat × Bool :=
  let files := find_files_recursively items
  if files = [] then (0, true) else deletion_loop del files

/-! ### main.py : authorization gate and rate limiter -/

/-- `TelegramBot.rate_limit_seconds` (1 message every 2 seconds). -/
def rate_limit_seconds : Int := 2

/-- Result of the gate: the Boolean verdict plus the (possibly updated)
`last_message_time` map, modelled as a total map with the `.get(uid, 0)`
default baked in. -/
structure GateResult where
  ok : Bool
  lastTime : Int → Int

/-- `_is_authorized_and_not_rate_limited`: reject a missing user, reject a
non-owner, reject the owner inside the cooldown — all without touching the
map — and otherwise stamp the map and accept. -/
def _is_authorized_and_not_rate_limited (ownerId : Int) (lastTime : Int → Int)
    (user : Option Int) (now : Int) : GateResult :=
  match user with
  | none => { ok := false, lastTime := lastTime }
  | some uid =>
    if uid ≠ ownerId then { ok := false, lastTime := lastTime }
    else if now - lastTime uid < rate_limit_seconds then
      { ok := false, lastTime := lastTime }
    else
      { ok := true, lastTime := fun u => if u = uid then now else lastTime u }

/-- Replies sent plus the rate-limiter map after the event. -/
structure EventResult where
  replies : List String
  lastTime : Int → Int

/-- The guard pattern shared by every handler in `main.py`:
`if not self._is_authorized_and_not_rate_limited(update): return` — a
rejected event produces no reply and runs none of the handler body. -/
def guardedHandler (ownerId : Int) (lastTime : Int → Int) (user : Option Int)
    (now : Int) (body : (Int → Int) → EventResult) : EventResult :=
  let g := _is_authorized_and_not_rate_limited ownerId lastTime user now
  if g.ok then body g.lastTime
  else { replies := [], lastTime := g.lastTime }

/-! ### main.py : document routing and workflows -/

/-- `Config.MAX_FILE_SIZE` (20 MiB). -/
def MAX_FILE_SIZE : Nat := 20 * 1024 * 1024

/-- The slice of `context.user_data` that `handle_document` consults. -/
structure UserData where
  mode : Option String
  update_repo_name : Option String
  use_template : Bool

/-- How `handle_document` routes an incoming document, before any download:
which reply is sent immediately, or which workflow starts downloading. -/
inductive DocRoute : Type where
  | missingRepoName : DocRoute
  | runUpdate (repo_name : String) (use_template : Bool) : DocRoute
  | noModeReply : DocRoute
  | rejectNotZip : DocRoute
  | rejectTooBig : DocRoute
  | runCreate (project_name : String) (use_template : Bool) : DocRoute
deriving DecidableEq

/-- The routing prefix of `handle_document`: the update branch forwards to
`run_update_workflow` with no filename or size check; only the create
branch validates `.zip` and the reported size before downloading. -/
def handle_document_route (ud : UserData) (file_name : String)
    (file_size : Nat) : DocRoute :=
  if ud.mode = some "update" then
    match ud.update_repo_name with
    | none => DocRoute.missingRepoName
    | some r => DocRoute.runUpdate r ud.use_template
  else if ud.mode ≠ some "upload" then DocRoute.noModeReply
  else if ! endsWithB file_name ".zip" then DocRoute.rejectNotZip
  else if MAX_FILE_SIZE < file_size then DocRoute.rejectTooBig
  else DocRoute.runCreate (pyReplace file_name ".zip" "") ud.use_template

/-- `"https://github.com/{username}/{repo}"`. -/
def repoUrl (username name : String) : String :=
  ("https://github.com/" ++ username) ++ ("/" ++ name)

/-- The final success reply of the create workflow (exactly the `edit_text`
payload built in `handle_document`). -/
def successReply (username project_name : String) (use_template : Bool)
    (counter : Nat) : String :=
  (("🎉 **Upload Berhasil!**\n\n📁 Project: " ++ project_name) ++ "\n🔗 Repository: ")
    ++ repoUrl username project_name
    ++ (("\n📂 Mode: " ++ (if use_template then "Template" else "Normal")) ++
        ("\n📊 Total upload: " ++ toString counter))

/-- The reply for a failed repository creation. -/
def createFailReply (project_name : String) : String :=
  ("❌ **Gagal membuat repository \x27" ++ project_name) ++
    "\x27**\n\nRepository dengan nama tersebut mungkin sudah ada atau ada masalah dengan GitHub API."

/-- The reply for a failed bulk upload after a successful creation. -/
def uploadFailReply : String :=
  "❌ **Upload Gagal**\n\nRepository berhasil dibuat tapi gagal upload file. Coba lagi nanti."

/-- Does the staged root hold a regular file of this name?
(`writeFile`'s overwrite test.) -/
def hasRootFile (root : FSDir) (name : String) : Bool :=
  root.anyE (fun e => match e with | FSEntry.file n _ => n = name | _ => false)

/-- Does the staged root hold any entry (file or directory) of this name?
(`os.path.exists` on a root-level path.) -/
def hasRootEntry (root : FSDir) (name : String) : Bool :=
  root.anyE (fun e => e.entryName = name)

/-- Replace the content of every root-level regular file of this name. -/
def overwriteRootFile (name content : String) : FSDir → FSDir
  | FSDir.nil => FSDir.nil
  | FSDir.cons (FSEntry.file n c) rest =>
      FSDir.cons (if n = name then FSEntry.file n content else FSEntry.file n c)
        (overwriteRootFile name content rest)
  | FSDir.cons e rest => FSDir.cons e (overwriteRootFile name content rest)

/-- Writing a file at the staged root: overwrite the equally named regular
file if present, otherwise create a new entry. -/
def writeRootFile (root : FSDir) (name content : String) : FSDir :=
  if hasRootFile root name then overwriteRootFile name content root
  else root.append (FSDir.cons (FSEntry.file name content) FSDir.nil)

/-- The generated basic README of the create workflow. -/
def basicReadmeContent (project_name : String) : String :=
  ("# " ++ project_name) ++ "\n\nProject uploaded via Telegram Bot\n"

/-- Outcome of the create workflow: the upload counter after the run, the
final reply, and the staged tree handed to `upload_files` (`none` when the
upload never started). -/
structure CreateOutcome where
  counter : Nat
  reply : String
  uploaded : Option FSDir

/-- The create path of `handle_document` after download, extraction and
layout normalization: create the repository (abort on failure), settle the
README (template mode regenerates it, normal mode adds the basic one only
when absent), upload, and bump the global counter only on upload success.
`create_ok` and `upload_ok` are the responses of the two remote
operations. -/
def run_create_workflow (parseDeps : String → Option (List String))
    (username project_name : String) (use_template : Bool)
    (root : FSDir) (create_ok : Bool)
    (upload_ok : FSDir → Bool) (counter : Nat) : CreateOutcome :=
  if ! create_ok then
    { counter := counter, reply := createFailReply project_name, uploaded := none }
  else
    let root2 :=
      if use_template then
        writeRootFile root "README.md" (generate_readme parseDeps root project_name)
      else if hasRootEntry root "README.md" then root
      else writeRootFile root "README.md" (basicReadmeContent project_name)
    if upload_ok root2 then
      { counter := counter + 1
        reply := successReply username project_name use_template (counter + 1)
        uploaded := some root2 }
    else
      { counter := counter, reply := uploadFailReply, uploaded := some root2 }

/-- The create workflow with its upload step instantiated by the real
`upload_files` loop over the walked staged tree. -/
def run_create_workflow_net (parseDeps : String → Option (List String))
    (username project_name : String) (use_template : Bool)
    (root : FSDir) (create_ok username_ok : Bool)
    (put_ok : String → Bool) (counter : Nat) : CreateOutcome :=
  run_create_workflow parseDeps username project_name use_template root create_ok
    (fun r =>
      (upload_files username_ok ((os_walk_files "" r).map (fun p => p.1)) put_ok).2)
    counter

/-! ### main.py : `update_repo_command` -/

/-- Outcome of `/upd_repo` argument handling. -/
inductive UpdRepoOutcome : Type where
  | usageReply : UpdRepoOutcome
  | notFound (repo_name : String) : UpdRepoOutcome
  | armed (repo_name : String) (use_template : Bool) : UpdRepoOutcome
deriving DecidableEq

/-- `update_repo_command`: no arguments is a usage reply; otherwise the
first argument is the target name, checked for existence, and template mode
is armed exactly when `template` occurs in the lowercased message text. -/
def update_repo_command (args : List String) (message_text : String)
    (repo_exists : String → Bool) : UpdRepoOutcome :=
  match args with
  | [] => UpdRepoOutcome.usageReply
  | repo_name :: _ =>
    if repo_exists repo_name then
      UpdRepoOutcome.armed repo_name (subB "template" (toLowerStr message_text))
    else UpdRepoOutcome.notFound repo_name

/-! ### Helper lemmas -/

theorem deletion_loop_all_ok (del : String × String → Bool) :
    ∀ l : List (String × String), (∀ g ∈ l, del g = true) →
      deletion_loop del l = (l.length, true) := by
  intro l
  induction l with
  | nil => intro _; rfl
  | cons f rest ih =>
    intro h
    have hf : del f = true := h f (List.mem_cons_self f rest)
    have hrest : ∀ g ∈ rest, del g = true :=
      fun g hg => h g (List.mem_cons_of_mem f hg)
    simp [deletion_loop, hf, ih hrest]

theorem deletion_loop_ok_iff (del : String × String → Bool) :
    ∀ l : List (String × String),
      (deletion_loop del l).2 = true ↔ ∀ g ∈ l, del g = true := by
  intro l
  induction l with
  | nil => simp [deletion_loop]
  | cons f rest ih =>
    cases hf : del f with
    | true => simp [deletion_loop, hf, ih]
    | false =>
      simp only [deletion_loop, hf]
      simp
      intro h
      rw [h] at hf
      exact Bool.noConfusion hf

theorem deletion_loop_first_fail (del : String × String → Bool) :
    ∀ (pre : List (String × String)) (f : String × String)
      (post : List (String × String)),
      (∀ g ∈ pre, del g = true) → del f = false →
      deletion_loop del (pre ++ f :: post) = (pre.length + 1, false) := by
  intro pre
  induction pre with
  | nil =>
    intro f post _ hf
    simp [deletion_loop, hf]
  | cons g pre2 ih =>
    intro f post hpre hf
    have hg : del g = true := hpre g (List.mem_cons_self g pre2)
    have hpre2 : ∀ x ∈ pre2, del x = true :=
      fun x hx => hpre x (List.mem_cons_of_mem g hx)
    simp [deletion_loop, hg, ih f post hpre2 hf]

theorem clear_eq_deletion_loop (items : RListing) (del : String × String → Bool) :
    clear_repository_contents items del
      = deletion_loop del (find_files_recursively items) := by
  unfold clear_repository_contents
  by_cases h : find_files_recursively items = []
  · simp [h, deletion_loop]
  · simp [h]

/-! ### Claims -/

/-- C1: the tree synchronizer (`clear_repository_contents`) deletes only
after the traversal has collected every remote file: its behaviour is a
function of the collected list; an empty collection is success with zero
delete calls; a first failure on the k-th collected file means exactly k
issued delete calls and a failure result, later files never attempted; and
the result is success exactly when every collected file's delete call
succeeds, in which case every file was issued exactly once. -/
theorem clear_repository_contents_spec (items : RListing)
    (del : String × String → Bool) :
    (clear_repository_contents items del
        = deletion_loop del (find_files_recursively items)) ∧
    (find_files_recursively items = [] →
        clear_repository_contents items del = (0, true)) ∧
    (∀ (pre : List (String × String)) (f : String × String)
        (post : List (String × String)),
        find_files_recursively items = pre ++ f :: post →
        (∀ g ∈ pre, del g = true) → del f = false →
        clear_repository_contents items del = (pre.length + 1, false)) ∧
    ((clear_repository_contents items del).2 = true ↔
        ∀ g ∈ find_files_recursively items, del g = true) ∧
    ((clear_repository_contents items del).2 = true →
        (clear_repository_contents items del).1
          = (find_files_recursively items).length) := by
  refine ⟨clear_eq_deletion_loop items del, ?_, ?_, ?_, ?_⟩
  · intro h
    unfold clear_repository_contents
    simp [h]
  · intro pre f post hsplit hpre hf
    rw [clear_eq_deletion_loop, hsplit]
    exact deletion_loop_first_fail del pre f post hpre hf
  · rw [clear_eq_deletion_loop]
    exact deletion_loop_ok_iff del (find_files_recursively items)
  · intro h
    rw [clear_eq_deletion_loop] at h ⊢
    have hall := (deletion_loop_ok_iff del (find_files_recursively items)).mp h
    rw [deletion_loop_all_ok del (find_files_recursively items) hall]

/-- Witness for C1: a concrete three-file tree whose second collected file
fails to delete yields exactly 2 issued calls and a failure. -/
theorem clear_repository_contents_spec_witness :
    clear_repository_contents
      (rlOf [RItem.file "a" "s1", RItem.dir "d" (rlOf [RItem.file "d/b" "s2"]),
             RItem.file "c" "s3"])
      (fun f => ! (f.1 == "d/b")) = (1 + 1, false) :=
  (clear_repository_contents_spec
      (rlOf [RItem.file "a" "s1", RItem.dir "d" (rlOf [RItem.file "d/b" "s2"]),
             RItem.file "c" "s3"])
      (fun f => ! (f.1 == "d/b"))).2.2.1
    [("a", "s1")] ("d/b", "s2") [("c", "s3")] rfl (by decide) rfl

/-- C3: layout normalization hoists the children of a sole top-level
directory and removes the wrapper, applies exactly one pass (a single
directory nested inside a single directory stays one level deep), and is
the identity on a root with two or more entries or a single file. -/
theorem zip_normalization_spec :
    (∀ n cs, normalizeLayout (FSDir.cons (FSEntry.dir n cs) FSDir.nil) = cs) ∧
    (∀ n m cs,
        normalizeLayout (FSDir.cons
          (FSEntry.dir n (FSDir.cons (FSEntry.dir m cs) FSDir.nil)) FSDir.nil)
        = FSDir.cons (FSEntry.dir m cs) FSDir.nil) ∧
    (∀ r : FSDir, 2 ≤ r.len → normalizeLayout r = r) ∧
    (∀ n c, normalizeLayout (FSDir.cons (FSEntry.file n c) FSDir.nil)
        = FSDir.cons (FSEntry.file n c) FSDir.nil) := by
  refine ⟨fun n cs => rfl, fun n m cs => rfl, ?_, fun n c => rfl⟩
  intro r hr
  cases r with
  | nil => simp [FSDir.len] at hr
  | cons a t =>
    cases t with
    | nil => simp [FSDir.len] at hr
    | cons b rest => cases a <;> rfl

/-- Witness for C3: a two-entry root is left unchanged. -/
theorem zip_normalization_spec_witness :
    normalizeLayout (fsOf [FSEntry.file "main.py" "x", FSEntry.file "cfg.py" "y"])
      = fsOf [FSEntry.file "main.py" "x", FSEntry.file "cfg.py" "y"] :=
  zip_normalization_spec.2.2.1
    (fsOf [FSEntry.file "main.py" "x", FSEntry.file "cfg.py" "y"]) (by decide)

/-- C5: repository creation succeeds exactly on a 201 response; a 422
already-exists response and every other non-201 outcome (including a raised
exception, `none`) produce the identical failure value. -/
theorem create_repository_spec :
    (∀ resp, create_repository resp = true ↔ resp = some 201) ∧
    (∀ status, status ≠ 201 → create_repository (some status) = false) ∧
    (∀ status, status ≠ 201 →
        create_repository (some status) = create_repository (some 422)) ∧
    (create_repository none = false) := by
  refine ⟨?_, ?_, ?_, rfl⟩
  · intro resp
    cases resp with
    | none => simp [create_repository]
    | some status =>
      by_cases h : status = 201
      · simp [create_repository, h]
      · by_cases h2 : status = 422 <;> simp [create_repository, h, h2]
  · intro status h
    by_cases h2 : status = 422 <;> simp [create_repository, h, h2]
  · intro status h
    by_cases h2 : status = 422 <;> simp [create_repository, h, h2]

/-- Witness for C5: a 500 response is the same failure as a 422 response. -/
theorem create_repository_spec_witness :
    create_repository (some 500) = false :=
  create_repository_spec.2.1 500 (by decide)

/-- C10: `/upd_repo` takes its first argument as the target repository name
unconditionally, and when that repository exists it arms template mode
exactly when the substring `template` occurs in the lowercased message
text; hence `/upd_repo template demo` checks a repository literally named
`template`, and a repository whose own name contains `template` always
arms template mode. -/
theorem update_repo_command_spec :
    (∀ (repo_name : String) (rest : List String) (message_text : String)
        (repo_exists : String → Bool),
        update_repo_command (repo_name :: rest) message_text repo_exists
          = if repo_exists repo_name then
              UpdRepoOutcome.armed repo_name
                (subB "template" (toLowerStr message_text))
            else UpdRepoOutcome.notFound repo_name) ∧
    (update_repo_command ["template", "demo"] "/upd_repo template demo"
        (fun r => r == "template")
      = UpdRepoOutcome.armed "template" true) ∧
    (update_repo_command ["template", "demo"] "/upd_repo template demo"
        (fun r => r == "demo")
      = UpdRepoOutcome.notFound "template") ∧
    (update_repo_command ["site-Template-v2"] "/upd_repo site-Template-v2"
        (fun _ => true)
      = UpdRepoOutcome.armed "site-Template-v2" true) := by
  refine ⟨fun repo_name rest message_text repo_exists => rfl, ?_, ?_, ?_⟩
  · decide
  · decide
  · decide

theorem gate_cases (ownerId : Int) (lastTime : Int → Int) (uid now : Int) :
    _is_authorized_and_not_rate_limited ownerId lastTime (some uid) now
      = if uid = ownerId ∧ rate_limit_seconds ≤ now - lastTime uid
        then { ok := true, lastTime := fun u => if u = uid then now else lastTime u }
        else { ok := false, lastTime := lastTime } := by
  simp only [_is_authorized_and_not_rate_limited]
  by_cases h1 : uid = ownerId
  · simp only [h1, ne_eq, not_true_eq_false, if_false, true_and]
    by_cases h2 : now - lastTime ownerId < rate_limit_seconds
    · rw [if_pos h2, if_neg (by omega)]
    · rw [if_neg h2, if_pos (by omega)]
  · rw [if_pos h1, if_neg (fun hc => h1 hc.1)]

/-- C2: the authorization/rate-limit gate accepts exactly when the caller is
the configured owner and at least 2 seconds have elapsed since that
caller's last accepted event; the last-accepted timestamp is updated
exactly on acceptance; and a rejected event leaves the rate-limiter map
untouched and — through the guard pattern every handler starts with —
produces no reply. -/
theorem gate_spec (ownerId : Int) (lastTime : Int → Int) (user : Option Int)
    (now : Int) :
    ((_is_authorized_and_not_rate_limited ownerId lastTime user now).ok = true ↔
        user = some ownerId ∧ rate_limit_seconds ≤ now - lastTime ownerId) ∧
    ((_is_authorized_and_not_rate_limited ownerId lastTime user now).ok = true →
        (_is_authorized_and_not_rate_limited ownerId lastTime user now).lastTime
          = fun u => if u = ownerId then now else lastTime u) ∧
    ((_is_authorized_and_not_rate_limited ownerId lastTime user now).ok = false →
        (_is_authorized_and_not_rate_limited ownerId lastTime user now).lastTime
          = lastTime) ∧
    (∀ body,
        (_is_authorized_and_not_rate_limited ownerId lastTime user now).ok = false →
        guardedHandler ownerId lastTime user now body
          = { replies := [], lastTime := lastTime }) := by
  cases user with
  | none =>
    refine ⟨by simp [_is_authorized_and_not_rate_limited], ?_, fun _ => rfl, ?_⟩
    · intro h
      exact absurd h (by simp [_is_authorized_and_not_rate_limited])
    · intro body h
      rfl
  | some uid =>
    rw [gate_cases]
    by_cases hc : uid = ownerId ∧ rate_limit_seconds ≤ now - lastTime uid
    · rw [if_pos hc]
      obtain ⟨h1, h2⟩ := hc
      subst h1
      refine ⟨by simp [h2], fun _ => rfl, ?_, ?_⟩
      · intro h
        exact absurd h (by simp)
      · intro body h
        exact absurd h (by simp)
    · rw [if_neg hc]
      refine ⟨?_, ?_, fun _ => rfl, ?_⟩
      · constructor
        · intro h
          exact absurd h (by simp)
        · rintro ⟨h1, h2⟩
          injection h1 with h1
          subst h1
          exact absurd ⟨rfl, h2⟩ hc
      · intro h
        exact absurd h (by simp)
      · intro body h
        simp [guardedHandler, gate_cases, if_neg hc]

/-- Witness for C2: the owner, last accepted at time 0, is accepted again
at time 5. -/
theorem gate_spec_witness :
    (_is_authorized_and_not_rate_limited 1 (fun _ => 0) (some 1) 5).ok = true :=
  (gate_spec 1 (fun _ => 0) (some 1) 5).1.mpr ⟨rfl, by decide⟩

/-- C4 counterexample: with refresh mode armed, a document named
`payload.tar` (not a `.zip`) whose reported size exceeds the 20 MiB cap is
not rejected at all — routing hands it straight to the update workflow,
which starts the download. -/
theorem handle_document_refresh_skips_validation :
    handle_document_route
        { mode := some "update", update_repo_name := some "demo",
          use_template := false }
        "payload.tar" (MAX_FILE_SIZE + 1)
      = DocRoute.runUpdate "demo" false ∧
    handle_document_route
        { mode := some "update", update_repo_name := some "demo",
          use_template := false }
        "payload.tar" (MAX_FILE_SIZE + 1)
      ≠ DocRoute.rejectNotZip ∧
    handle_document_route
        { mode := some "update", update_repo_name := some "demo",
          use_template := false }
        "payload.tar" (MAX_FILE_SIZE + 1)
      ≠ DocRoute.rejectTooBig := by
  refine ⟨rfl, ?_, ?_⟩ <;> decide

/-- C4 (amended): only in create mode does `handle_document` validate the
upload before downloading — a non-`.zip` name or a reported size above
20 MiB is rejected with a descriptive reply and nothing remote starts;
with refresh mode armed the document is forwarded to the update workflow
with no name or size validation. -/
theorem handle_document_validation_spec (ud : UserData) (file_name : String)
    (file_size : Nat) :
    (ud.mode = some "upload" → endsWithB file_name ".zip" = false →
        handle_document_route ud file_name file_size = DocRoute.rejectNotZip) ∧
    (ud.mode = some "upload" → endsWithB file_name ".zip" = true →
        MAX_FILE_SIZE < file_size →
        handle_document_route ud file_name file_size = DocRoute.rejectTooBig) ∧
    (ud.mode = some "upload" → endsWithB file_name ".zip" = true →
        file_size ≤ MAX_FILE_SIZE →
        handle_document_route ud file_name file_size
          = DocRoute.runCreate (pyReplace file_name ".zip" "") ud.use_template) ∧
    (∀ r, ud.mode = some "update" → ud.update_repo_name = some r →
        handle_document_route ud file_name file_size
          = DocRoute.runUpdate r ud.use_template) := by
  refine ⟨?_, ?_, ?_, ?_⟩
  · intro h1 h2
    simp [handle_document_route, h1, h2]
  · intro h1 h2 h3
    simp [handle_document_route, h1, h2, h3, Nat.not_le.mpr h3]
  · intro h1 h2 h3
    simp [handle_document_route, h1, h2, Nat.not_lt.mpr h3]
  · intro r h1 h2
    simp [handle_document_route, h1, h2]

/-- Witness for C4 (amended): in create mode a `.tar` upload is rejected as
not a ZIP before anything else happens. -/
theorem handle_document_validation_spec_witness :
    handle_document_route
        { mode := some "upload", update_repo_name := none, use_template := false }
        "payload.tar" 1000
      = DocRoute.rejectNotZip :=
  (handle_document_validation_spec
      { mode := some "upload", update_repo_name := none, use_template := false }
      "payload.tar" 1000).1 rfl (by decide)

theorem hasRootFile_false_of_entry (name : String) :
    ∀ root : FSDir, hasRootEntry root name = false → hasRootFile root name = false
  | FSDir.nil, _ => rfl
  | FSDir.cons e rest, h => by
      simp only [hasRootEntry, FSDir.anyE, Bool.or_eq_false_iff] at h
      obtain ⟨ha, hb⟩ := h
      simp only [hasRootFile, FSDir.anyE, Bool.or_eq_false_iff]
      refine ⟨?_, hasRootFile_false_of_entry name rest hb⟩
      cases e with
      | file n c =>
        simp only [FSEntry.entryName, decide_eq_false_iff_not] at ha
        simpa using ha
      | dir n cs => rfl

/-- C6: in the create workflow with template mode off and no `README.md` at
the staged root, a `README.md` whose content is exactly
`# <name>\n\nProject uploaded via Telegram Bot\n` is appended before the
upload; a successful upload bumps the counter by exactly one and the final
reply contains the repository URL; a failed upload leaves the counter
unchanged. -/
theorem create_workflow_readme_counter_spec
    (parseDeps : String → Option (List String)) (username project_name : String)
    (root : FSDir) (upload_ok : FSDir → Bool) (counter : Nat)
    (hNo : hasRootEntry root "README.md" = false) :
    ((run_create_workflow parseDeps username project_name false root true
          upload_ok counter).uploaded
        = some (root.append (FSDir.cons
            (FSEntry.file "README.md" (basicReadmeContent project_name))
            FSDir.nil))) ∧
    (upload_ok (root.append (FSDir.cons
          (FSEntry.file "README.md" (basicReadmeContent project_name))
          FSDir.nil)) = true →
        (run_create_workflow parseDeps username project_name false root true
            upload_ok counter).counter = counter + 1 ∧
        containsSub (repoUrl username project_name)
          (run_create_workflow parseDeps username project_name false root true
              upload_ok counter).reply) ∧
    (upload_ok (root.append (FSDir.cons
          (FSEntry.file "README.md" (basicReadmeContent project_name))
          FSDir.nil)) = false →
        (run_create_workflow parseDeps username project_name false root true
            upload_ok counter).counter = counter) := by
  have hF : hasRootFile root "README.md" = false :=
    hasRootFile_false_of_entry "README.md" root hNo
  have hwrite : writeRootFile root "README.md" (basicReadmeContent project_name)
      = root.append (FSDir.cons
          (FSEntry.file "README.md" (basicReadmeContent project_name))
          FSDir.nil) := by
    simp [writeRootFile, hF]
  have hrun : run_create_workflow parseDeps username project_name false root true
      upload_ok counter
      = if upload_ok (root.append (FSDir.cons
            (FSEntry.file "README.md" (basicReadmeContent project_name))
            FSDir.nil)) then
          { counter := counter + 1
            reply := successReply username project_name false (counter + 1)
            uploaded := some (root.append (FSDir.cons
              (FSEntry.file "README.md" (basicReadmeContent project_name))
              FSDir.nil)) }
        else
          { counter := counter, reply := uploadFailReply
            uploaded := some (root.append (FSDir.cons
              (FSEntry.file "README.md" (basicReadmeContent project_name))
              FSDir.nil)) } := by
    simp only [run_create_workflow, Bool.not_true, Bool.false_eq_true, if_false,
      hNo, hwrite, Bool.if_false_left]
  by_cases hup : upload_ok (root.append (FSDir.cons
      (FSEntry.file "README.md" (basicReadmeContent project_name)) FSDir.nil)) = true
  · rw [hrun, if_pos hup]
    exact ⟨rfl, fun _ => ⟨rfl, ⟨_, _, rfl⟩⟩, fun h => absurd hup (by simp [h])⟩
  · rw [hrun, if_neg hup]
    exact ⟨rfl, fun h => absurd h hup, fun _ => rfl⟩

/-- Witness for C6: uploading `main.py` with no README succeeds, the
counter rises from 0 to 1, and the reply contains the repository URL. -/
theorem create_workflow_readme_counter_spec_witness :
    (run_create_workflow (fun _ => none) "alice" "demo" false
        (fsOf [FSEntry.file "main.py" "pass"]) true (fun _ => true) 0).counter
      = 0 + 1 ∧
    containsSub (repoUrl "alice" "demo")
      (run_create_workflow (fun _ => none) "alice" "demo" false
          (fsOf [FSEntry.file "main.py" "pass"]) true (fun _ => true) 0).reply :=
  (create_workflow_readme_counter_spec (fun _ => none) "alice" "demo"
      (fsOf [FSEntry.file "main.py" "pass"]) (fun _ => true) 0 rfl).2.1 rfl

/-- C7: description generation is total — every staged tree and name yield
a document starting with the `# <name>` title — and on the empty project
(zero files) it returns, for every dependency-parsing oracle, the fully
generic document: empty tally, no main language, no frameworks, generic
`Application` type, and a rendering with no `## Technologies Used` section
and the generic getting-started fallback. -/
theorem generate_readme_total_spec :
    (∀ (parseDeps : String → Option (List String)) (root : FSDir)
        (name : String),
        ∃ rest, generate_readme parseDeps root name
          = ("# " ++ name ++ "\n\n") ++ rest) ∧
    (∀ parseDeps : String → Option (List String),
        (analyze_project parseDeps FSDir.nil).languages = [] ∧
        (analyze_project parseDeps FSDir.nil).main_language = none ∧
        (analyze_project parseDeps FSDir.nil).frameworks = [] ∧
        (analyze_project parseDeps FSDir.nil).project_type = "Application") ∧
    (∀ parseDeps : String → Option (List String),
        generate_readme parseDeps FSDir.nil "demo"
          = "# demo\n\nA Application.\n\n## Project Structure\n\n```\ndemo/\n```\n\n## Getting Started\n\n### Installation\n\n```bash\n# Clone the repository\ngit clone https://github.com/your-username/demo.git\ncd demo\n```\n\n### Usage\n\nFollow the specific instructions for your project type.\n\n## Contributing\n\n1. Fork the repository\n2. Create your feature branch (`git checkout -b feature/amazing-feature`)\n3. Commit your changes (`git commit -m \x27Add some amazing feature\x27`)\n4. Push to the branch (`git push origin feature/amazing-feature`)\n5. Open a Pull Request\n\n## License\n\nThis project is licensed under the MIT License - see the LICENSE file for details.\n\n---\n\n*Project uploaded via Telegram Bot*\n") ∧
    (∀ parseDeps : String → Option (List String),
        subB "## Technologies Used" (generate_readme parseDeps FSDir.nil "demo")
          = false) := by
  refine ⟨fun parseDeps root name => ⟨_, rfl⟩, fun parseDeps => ⟨rfl, rfl, rfl, rfl⟩,
    fun parseDeps => rfl, ?_⟩
  intro parseDeps
  have h : generate_readme parseDeps FSDir.nil "demo"
      = "# demo\n\nA Application.\n\n## Project Structure\n\n```\ndemo/\n```\n\n## Getting Started\n\n### Installation\n\n```bash\n# Clone the repository\ngit clone https://github.com/your-username/demo.git\ncd demo\n```\n\n### Usage\n\nFollow the specific instructions for your project type.\n\n## Contributing\n\n1. Fork the repository\n2. Create your feature branch (`git checkout -b feature/amazing-feature`)\n3. Commit your changes (`git commit -m \x27Add some amazing feature\x27`)\n4. Push to the branch (`git push origin feature/amazing-feature`)\n5. Open a Pull Request\n\n## License\n\nThis project is licensed under the MIT License - see the LICENSE file for details.\n\n---\n\n*Project uploaded via Telegram Bot*\n" :=
    rfl
  rw [h]
  decide

/-- C8: on the file set `{a.py, b.py, c.js}` the language tally is Python 2
and JavaScript 1 and the main language resolves to Python — for every
dependency-parsing oracle and in every listing order of the three files, so
the unique-maximum resolution is deterministic. -/
theorem language_tally_spec :
    (∀ parseDeps : String → Option (List String),
        (analyze_project parseDeps (fsOf [FSEntry.file "a.py" "", FSEntry.file "b.py" "",
            FSEntry.file "c.js" ""])).languages
          = [("Python", 2), ("JavaScript", 1)]) ∧
    (∀ parseDeps : String → Option (List String),
        (analyze_project parseDeps (fsOf [FSEntry.file "a.py" "", FSEntry.file "b.py" "",
            FSEntry.file "c.js" ""])).main_language = some "Python") ∧
    (∀ parseDeps : String → Option (List String),
        (analyze_project parseDeps (fsOf [FSEntry.file "a.py" "", FSEntry.file "c.js" "",
            FSEntry.file "b.py" ""])).main_language = some "Python") ∧
    (∀ parseDeps : String → Option (List String),
        (analyze_project parseDeps (fsOf [FSEntry.file "b.py" "", FSEntry.file "a.py" "",
            FSEntry.file "c.js" ""])).main_language = some "Python") ∧
    (∀ parseDeps : String → Option (List String),
        (analyze_project parseDeps (fsOf [FSEntry.file "b.py" "", FSEntry.file "c.js" "",
            FSEntry.file "a.py" ""])).main_language = some "Python") ∧
    (∀ parseDeps : String → Option (List String),
        (analyze_project parseDeps (fsOf [FSEntry.file "c.js" "", FSEntry.file "a.py" "",
            FSEntry.file "b.py" ""])).main_language = some "Python") ∧
    (∀ parseDeps : String → Option (List String),
        (analyze_project parseDeps (fsOf [FSEntry.file "c.js" "", FSEntry.file "b.py" "",
            FSEntry.file "a.py" ""])).main_language = some "Python") :=
  ⟨fun _ => rfl, fun _ => rfl, fun _ => rfl, fun _ => rfl, fun _ => rfl,
   fun _ => rfl, fun _ => rfl⟩

theorem upload_loop_fst (put_ok : String → Bool) :
    ∀ files : List String, (upload_loop put_ok files).1 = files.length := by
  intro files
  induction files with
  | nil => rfl
  | cons f rest ih => simp [upload_loop, ih]

theorem upload_loop_pos (put_ok : String → Bool) :
    ∀ files : List String,
      0 < (upload_loop put_ok files).2 ↔ ∃ f ∈ files, put_ok f = true := by
  intro files
  induction files with
  | nil => simp [upload_loop]
  | cons f rest ih =>
    cases hf : put_ok f with
    | true => simp [upload_loop, hf]
    | false => simp [upload_loop, hf, ih]

/-- C9: the bulk upload attempts every file even after individual failures
(the number of issued PUT calls always equals the file count) and reports
success exactly when at least one file succeeded; concretely, a staged tree
of `README.md` and `main.py` where only `README.md` uploads still reports
success, still bumps the create-workflow counter from 3 to 4, and still
produces the success reply with the repository URL. -/
theorem upload_files_spec (files : List String) (put_ok : String → Bool) :
    ((upload_files true files put_ok).1 = files.length) ∧
    ((upload_files true files put_ok).2 = true ↔ ∃ f ∈ files, put_ok f = true) ∧
    (upload_files true ["README.md", "main.py"] (fun p => p == "README.md")
        = (2, true)) ∧
    ((run_create_workflow_net (fun _ => none) "alice" "demo" false
        (fsOf [FSEntry.file "README.md" "r", FSEntry.file "main.py" "m"]) true true
        (fun p => p == "README.md") 3).counter = 4) ∧
    containsSub (repoUrl "alice" "demo")
      (run_create_workflow_net (fun _ => none) "alice" "demo" false
          (fsOf [FSEntry.file "README.md" "r", FSEntry.file "main.py" "m"]) true true
          (fun p => p == "README.md") 3).reply := by
  refine ⟨?_, ?_, rfl, rfl, ⟨_, _, rfl⟩⟩
  · simp [upload_files, upload_loop_fst]
  · simp only [upload_files, if_true, decide_eq_true_eq]
    exact upload_loop_pos put_ok files

end Bot
